import Mathlib

/-!
Shallow embedding of the amazon-fba-image-optimizer batch pipeline.

Sources embedded (field and function names follow the TypeScript source):
- src/lib/security.ts        : SECURITY_CONFIG, validateFileSize, validateFileType,
                               checkRateLimit (fixed-window limiter over a Map)
- src/lib/cloudinary.ts      : checkUsageLimit (usage percentages against fixed plan
                               ceilings, near/over-limit flags), uploadAndOptimizeImage
                               (quota gate + fixed transformation/eager variant specs)
- src/app/api/process/route.ts            : POST batch handler (validation, fan-out,
                                            aggregation into counts/results/errors)
- src/app/api/batch/[batchId]/download/route.ts : POST bundle (ZIP) relay
- src/app/api/proxy/download/route.ts     : POST individual download relay

Remote interactions (the Cloudinary usage query, the upload call, the relay
fetches) are passed in explicitly as oracle data; JavaScript numbers used in
percentage computations are modelled as rationals; epoch milliseconds as Nat.
A JS object field that a branch omits (hence `undefined`, falsy) is modelled
as the corresponding `false` / `none` value, matching how callers test it.
-/

/-! ## src/lib/security.ts -/

structure SecurityConfig where
  maxFileSize : Nat
  maxConcurrentUploads : Nat
  rateLimitPerMinute : Nat
  allowedMimeTypes : List String
deriving DecidableEq

/-- `SECURITY_CONFIG` with the default environment (no overriding env vars):
10 MiB max file size, 5 concurrent uploads, 60 requests/minute. -/
def SECURITY_CONFIG : SecurityConfig :=
  { maxFileSize := 10 * 1024 * 1024
    maxConcurrentUploads := 5
    rateLimitPerMinute := 60
    allowedMimeTypes := ["image/jpeg", "image/png", "image/gif", "image/webp"] }

/-- The relevant fields of a browser `File`: name, byte size, declared MIME type. -/
structure FileDesc where
  name : String
  size : Nat
  type : String
deriving DecidableEq

structure ValidationResult where
  valid : Bool
  error : Option String
deriving DecidableEq

def validateFileSize (cfg : SecurityConfig) (file : FileDesc) : ValidationResult :=
  if file.size > cfg.maxFileSize then
    { valid := false
      error := some ("ファイルサイズが大きすぎます。最大" ++
        toString (cfg.maxFileSize / 1024 / 1024) ++ "MBまでアップロード可能です。") }
  else
    { valid := true, error := none }

def validateFileType (cfg : SecurityConfig) (file : FileDesc) : ValidationResult :=
  if (cfg.allowedMimeTypes.contains file.type) = false then
    { valid := false
      error := some ("サポートされていないファイル形式です。対応形式: " ++
        String.intercalate ", " cfg.allowedMimeTypes) }
  else
    { valid := true, error := none }

/-- Acceptance by the Validator component: both `validateFileSize` and
`validateFileType` pass (the order used by the process route). -/
def fileAccepted (cfg : SecurityConfig) (file : FileDesc) : Bool :=
  (validateFileSize cfg file).valid && (validateFileType cfg file).valid

structure RateLimitEntry where
  count : Nat
  resetTime : Nat
deriving DecidableEq

/-- The `rateLimitStore` Map, as an association list with at most one entry
per identifier (maintained by construction). -/
abbrev RateLimitStore := List (String × RateLimitEntry)

def storeDelete (store : RateLimitStore) (identifier : String) : RateLimitStore :=
  store.filter (fun p => !(p.1 == identifier))

/-- `Map.set`: overwrite any entry for the identifier. -/
def storeSet (store : RateLimitStore) (identifier : String) (e : RateLimitEntry) :
    RateLimitStore :=
  (identifier, e) :: storeDelete store identifier

structure RateLimitResult where
  allowed : Bool
  retryAfter : Option Nat
deriving DecidableEq

/-- `checkRateLimit(identifier)` at time `now` (ms). The store is passed and
returned explicitly in place of the module-level mutable Map. `Math.ceil` of
the millisecond remainder over 1000 is `(d + 999) / 1000` in Nat. -/
def checkRateLimit (cfg : SecurityConfig) (now : Nat) (identifier : String)
    (store : RateLimitStore) : RateLimitResult × RateLimitStore :=
  match store.lookup identifier with
  | none =>
      ({ allowed := true, retryAfter := none },
       storeSet store identifier { count := 1, resetTime := now + 60 * 1000 })
  | some userLimit =>
      if now > userLimit.resetTime then
        -- stale entry deleted, new window started with count = 1
        ({ allowed := true, retryAfter := none },
         storeSet store identifier { count := 1, resetTime := now + 60 * 1000 })
      else if userLimit.count ≥ cfg.rateLimitPerMinute then
        ({ allowed := false
           retryAfter := some ((userLimit.resetTime - now + 999) / 1000) }, store)
      else
        ({ allowed := true, retryAfter := none },
         storeSet store identifier
           { count := userLimit.count + 1, resetTime := userLimit.resetTime })

/-- Run a sequence of admission calls `(time, identifier)`, returning the
per-call records `(time, identifier, allowed)` and the final store. -/
def runCalls (cfg : SecurityConfig) (store : RateLimitStore) :
    List (Nat × String) → List (Nat × String × Bool) × RateLimitStore
  | [] => ([], store)
  | (t, id) :: rest =>
      let step := checkRateLimit cfg t id store
      let tail := runCalls cfg step.2 rest
      ((t, id, step.1.allowed) :: tail.1, tail.2)

/-! ## src/lib/cloudinary.ts -/

/-- One remote usage reading: raw consumption figures
(`usage.bandwidth.used`, `usage.storage.used`, `usage.transformations.usage`). -/
structure RawUsage where
  bandwidthUsed : Rat
  storageUsed : Rat
  transformationsUsed : Rat
deriving DecidableEq

structure UsageFigures where
  bandwidth : Rat
  storage : Rat
  transformations : Rat
deriving DecidableEq

structure QuotaSnapshot where
  isNearLimit : Bool
  isOverLimit : Bool
  usage : Option UsageFigures
  nextResetDate : Option String
deriving DecidableEq

/-- `checkUsageLimit()`: the remote query outcome is the `reading` argument
(`.error` = the query threw, caught by the catch block); `nextResetDate` is
the formatted first day of the next month, passed in as a string. The plan
ceilings are fixed: 25 GiB bandwidth, 25 GiB storage, 25000 transformations. -/
def checkUsageLimit (reading : Except String RawUsage) (nextResetDate : String) :
    QuotaSnapshot :=
  match reading with
  | .error _ =>
      { isNearLimit := false, isOverLimit := false, usage := none, nextResetDate := none }
  | .ok u =>
      let bandwidthPercentage : Rat := u.bandwidthUsed / (25 * 1024 * 1024 * 1024) * 100
      let storagePercentage : Rat := u.storageUsed / (25 * 1024 * 1024 * 1024) * 100
      let transformationsPercentage : Rat := u.transformationsUsed / 25000 * 100
      if bandwidthPercentage > 80 ∨ storagePercentage > 80 ∨
          transformationsPercentage > 80 then
        { isNearLimit := true, isOverLimit := false
          usage := some ⟨bandwidthPercentage, storagePercentage, transformationsPercentage⟩
          nextResetDate := some nextResetDate }
      else if bandwidthPercentage ≥ 100 ∨ storagePercentage ≥ 100 ∨
          transformationsPercentage ≥ 100 then
        { isNearLimit := false, isOverLimit := true
          usage := some ⟨bandwidthPercentage, storagePercentage, transformationsPercentage⟩
          nextResetDate := some nextResetDate }
      else
        { isNearLimit := false, isOverLimit := false
          usage := some ⟨bandwidthPercentage, storagePercentage, transformationsPercentage⟩
          nextResetDate := none }

/-- One fixed Cloudinary transformation specification. -/
structure TransformSpec where
  width : Nat
  height : Nat
  crop : String
  gravity : String
  quality : Nat
  format : String
deriving DecidableEq

/-- The constant `transformation` entry of `uploadOptions`. -/
def uploadTransformation : TransformSpec :=
  { width := 2000, height := 2000, crop := "fill", gravity := "center"
    quality := 95, format := "jpg" }

/-- The constant `eager` list of `uploadOptions`: index 0 is the main variant
(2000x2000), index 1 the thumbnail variant (1000x1000). The `options`
parameter of `uploadAndOptimizeImage` is never consulted when building these. -/
def uploadEager : List TransformSpec :=
  [ { width := 2000, height := 2000, crop := "fill", gravity := "center"
      quality := 95, format := "jpg" }
  , { width := 1000, height := 1000, crop := "fill", gravity := "center"
      quality := 90, format := "jpg" } ]

/-- The raw result delivered by `cloudinary.uploader.upload_stream`; `eager`
holds one secure URL per entry of `uploadEager`, in order. -/
structure RemoteUploadResult where
  secure_url : String
  public_id : String
  width : Nat
  height : Nat
  format : String
  bytes : Nat
  eager : List String
deriving DecidableEq

/-- The `UploadResult` interface of cloudinary.ts (`variants.main` /
`variants.thumbnail` are the optional eager URLs). -/
structure UploadResult where
  url : String
  publicId : String
  width : Nat
  height : Nat
  format : String
  bytes : Nat
  variantMain : Option String
  variantThumbnail : Option String
deriving DecidableEq

/-- Marker substring the process route uses to recognise a quota error. -/
def quotaMsgMarker : String := "無料枠の使用量を超えました"

/-- `uploadAndOptimizeImage`: re-checks the usage limit, throws a
quota-exceeded error without contacting the upload endpoint when
`isOverLimit`, otherwise performs the remote upload (`remote` is that call's
outcome). The second component records whether the remote upload call was
issued. -/
def uploadAndOptimizeImage (reading : Except String RawUsage) (nextResetDate : String)
    (remote : Except String RemoteUploadResult) : Except String UploadResult × Bool :=
  let usageCheck := checkUsageLimit reading nextResetDate
  if usageCheck.isOverLimit then
    (.error (quotaMsgMarker ++ "。次回リセット日: " ++ (usageCheck.nextResetDate.getD "")),
     false)
  else
    match remote with
    | .error e => (.error e, true)
    | .ok r =>
        (.ok { url := r.secure_url, publicId := r.public_id, width := r.width
               height := r.height, format := r.format, bytes := r.bytes
               variantMain := r.eager.get? 0, variantThumbnail := r.eager.get? 1 },
         true)

/-! ## src/app/api/process/route.ts -/

/-- The per-file success record the route returns (its `dimensions` field is
split into `dimWidth` / `dimHeight`). -/
structure ProcessSuccess where
  originalName : String
  optimizedUrl : String
  mainImageUrl : Option String
  thumbnailUrl : Option String
  size : Nat
  dimWidth : Nat
  dimHeight : Nat
deriving DecidableEq

structure ProcessError where
  fileName : String
  error : String
deriving DecidableEq

/-- The per-file settled value: success record, or error record plus the
`isQuotaError` flag. -/
inductive FileOutcome where
  | success (r : ProcessSuccess)
  | failure (e : ProcessError) (isQuotaError : Bool)
deriving DecidableEq

/-- `String.includes`, character-list infix test (JS `includes`). -/
def hasSubList (sub : List Char) : List Char → Bool
  | [] => sub.isEmpty
  | c :: rest => sub.isPrefixOf (c :: rest) || hasSubList sub rest

def stringIncludes (s sub : String) : Bool :=
  hasSubList sub.data s.data

/-- The body of the `files.map` callback in the POST handler: size check,
type check, then `uploadAndOptimizeImage`; a caught error becomes a failure
record carrying `isQuotaError`. The Bool records whether a remote upload call
was issued for this file. -/
def processFile (cfg : SecurityConfig) (reading : Except String RawUsage)
    (nextResetDate : String) (file : FileDesc)
    (remote : Except String RemoteUploadResult) : FileOutcome × Bool :=
  if (validateFileSize cfg file).valid = false then
    (.failure { fileName := file.name, error := (validateFileSize cfg file).error.getD "" }
       false, false)
  else if (validateFileType cfg file).valid = false then
    (.failure { fileName := file.name, error := (validateFileType cfg file).error.getD "" }
       false, false)
  else
    match uploadAndOptimizeImage reading nextResetDate remote with
    | (.ok u, called) =>
        (.success { originalName := file.name
                    optimizedUrl := u.variantMain.getD u.url
                    mainImageUrl := u.variantMain
                    thumbnailUrl := u.variantThumbnail
                    size := u.bytes
                    dimWidth := 2000
                    dimHeight := 2000 }, called)
    | (.error msg, called) =>
        (.failure { fileName := file.name, error := msg }
           (stringIncludes msg quotaMsgMarker), called)

/-- The aggregated JSON body built by the POST handler (`batch_id` and
`processed_at` are wall-clock data, not modelled). -/
structure BatchResponse where
  total_images : Nat
  processed : Nat
  failed : Nat
  results : List ProcessSuccess
  errors : List ProcessError
  quotaExceeded : Bool
  usage : Option UsageFigures
  message : String
deriving DecidableEq

def successOf : FileOutcome × Bool → Option ProcessSuccess
  | (.success s, _) => some s
  | (.failure _ _, _) => none

def errorOf : FileOutcome × Bool → Option ProcessError
  | (.failure e _, _) => some e
  | (.success _, _) => none

def isQuotaOutcome : FileOutcome × Bool → Bool
  | (.failure _ q, _) => q
  | (.success _, _) => false

/-- Fan-out over the batch followed by the aggregation loop. Each submitted
file is paired with its remote upload outcome (the oracle for its
`upload_stream` call). The Nat counts remote upload calls issued. -/
def processBatch (cfg : SecurityConfig) (reading : Except String RawUsage)
    (nextResetDate : String)
    (files : List (FileDesc × Except String RemoteUploadResult)) :
    BatchResponse × Nat :=
  let outs := files.map (fun p => processFile cfg reading nextResetDate p.1 p.2)
  let results := outs.filterMap successOf
  let errors := outs.filterMap errorOf
  ({ total_images := files.length
     processed := results.length
     failed := errors.length
     results := results
     errors := errors
     quotaExceeded := outs.any isQuotaOutcome
     usage := (checkUsageLimit reading nextResetDate).usage
     message := if results.length > 0 then
         toString results.length ++ "枚の画像を最適化しました。"
       else "画像の処理に失敗しました。" },
   outs.countP (fun o => o.2))

inductive RouteResponse where
  | rateLimited (retryAfter : Nat)
  | configError
  | noFiles
  | tooManyFiles
  | batch (b : BatchResponse)
deriving DecidableEq

/-- The POST /api/process handler. `rateCheck` is the already-computed
`checkRateLimit` result for the client, `credsPresent` whether the Cloudinary
environment variables are set. `outputSizes` is the form field the client
submits alongside the images; the handler body never reads it. The Nat
counts remote upload calls issued. -/
def processPOST (cfg : SecurityConfig) (rateCheck : RateLimitResult)
    (credsPresent : Bool) (reading : Except String RawUsage) (nextResetDate : String)
    (outputSizes : List String)
    (files : List (FileDesc × Except String RemoteUploadResult)) :
    RouteResponse × Nat :=
  if rateCheck.allowed = false then (.rateLimited (rateCheck.retryAfter.getD 0), 0)
  else if credsPresent = false then (.configError, 0)
  else if files.length = 0 then (.noFiles, 0)
  else if files.length > cfg.maxConcurrentUploads then (.tooManyFiles, 0)
  else
    let r := processBatch cfg reading nextResetDate files
    (.batch r.1, r.2)

/-! ## src/app/api/batch/[batchId]/download/route.ts -/

/-- JS `split` on a single character, structurally recursive. -/
def splitOnChar (c : Char) : List Char → List (List Char)
  | [] => [[]]
  | x :: xs =>
      let r := splitOnChar c xs
      if x = c then [] :: r
      else
        match r with
        | [] => [[x]]
        | h :: t => (x :: h) :: t

/-- `url.split('.').pop()?.split('?')[0] || 'jpg'`. -/
def extOf (url : String) : String :=
  let parts := splitOnChar '.' url.data
  let last := parts.getLastD []
  let e := last.takeWhile (fun c => decide (c ≠ '?'))
  if e.isEmpty then "jpg" else String.mk e

structure ZipEntry where
  filename : String
  content : String
deriving DecidableEq

/-- The download loop: fetch each URL (the `fetch` oracle returns `none` for a
non-ok response, an exception, or a timeout, all of which are skipped) and add
one sequentially named entry per successful fetch. -/
def buildEntries (fetch : String → Option String) : Nat → List String → List ZipEntry
  | _, [] => []
  | i, u :: rest =>
      match fetch u with
      | some content =>
          { filename := "optimized_" ++ toString (i + 1) ++ "." ++ extOf u
            content := content } :: buildEntries fetch (i + 1) rest
      | none => buildEntries fetch (i + 1) rest

inductive DownloadResponse where
  | badRequest (error : String)
  | tooMany (error : String)
  | zip (batchId : String) (entries : List ZipEntry)
deriving DecidableEq

/-- The POST bundle-download handler. The Nat counts fetch calls issued. -/
def downloadPOST (batchId : String) (imageUrls : List String)
    (fetch : String → Option String) : DownloadResponse × Nat :=
  if imageUrls.length = 0 then (.badRequest "画像URLが指定されていません", 0)
  else if imageUrls.length > 20 then
    (.tooMany "一度にダウンロードできる画像は最大20枚までです", 0)
  else (.zip batchId (buildEntries fetch 0 imageUrls), imageUrls.length)

/-! ## src/app/api/proxy/download/route.ts -/

inductive ProxyResponse where
  | badRequest (error : String)
  | fetchAttempt (url : String)
deriving DecidableEq

/-- The POST individual-relay handler up to its fetch: `none` / empty string
is the falsy `!url` case; then the substring test
`url.includes('res.cloudinary.com')`; a URL passing it reaches the fetch.
The Bool records whether the fetch branch was reached. -/
def proxyDownloadPOST (url : Option String) : ProxyResponse × Bool :=
  match url with
  | none => (.badRequest "画像URLが指定されていません", false)
  | some u =>
      if u = "" then (.badRequest "画像URLが指定されていません", false)
      else if stringIncludes u "res.cloudinary.com" = false then
        (.badRequest "無効なURLです", false)
      else (.fetchAttempt u, true)

/-- Suffix after the first occurrence of `pat`, if any. -/
def dropPast (pat : List Char) : List Char → Option (List Char)
  | [] => if pat.isEmpty then some [] else none
  | c :: rest =>
      if pat.isPrefixOf (c :: rest) then some (List.drop pat.length (c :: rest))
      else dropPast pat rest

def takeUntilSlash : List Char → List Char
  | [] => []
  | c :: rest => if c = '/' then [] else c :: takeUntilSlash rest

/-- The host component of a URL: the part after `://` up to the next `/`.
Used to state what "hosted on the expected remote domain" means. -/
def hostOf (url : String) : String :=
  String.mk (takeUntilSlash ((dropPast "://".data url.data).getD url.data))

/-! ## Predicates and concrete fixtures used by the theorems -/

/-- Every stored per-identifier counter is at most the configured ceiling. -/
def storeBounded (cfg : SecurityConfig) (store : RateLimitStore) : Prop :=
  ∀ p ∈ store, p.2.count ≤ cfg.rateLimitPerMinute

/-- A usage reading at 150% of the 25 GiB bandwidth ceiling (37.5 GiB used). -/
def reading150 : RawUsage :=
  { bandwidthUsed := 40265318400, storageUsed := 0, transformationsUsed := 0 }

/-- A usage reading with no consumption at all. -/
def readingZero : RawUsage :=
  { bandwidthUsed := 0, storageUsed := 0, transformationsUsed := 0 }

def fileA : FileDesc := { name := "a.jpg", size := 1048576, type := "image/jpeg" }

/-- An oversized file: one byte over the default 10 MiB ceiling. -/
def bigFile : FileDesc := { name := "big.jpg", size := 10485761, type := "image/jpeg" }

def pdfFile : FileDesc := { name := "doc.pdf", size := 5, type := "application/pdf" }

def remoteA : RemoteUploadResult :=
  { secure_url := "https://res.cloudinary.com/d/a.jpg"
    public_id := "amazon-fba/a", width := 4000, height := 3000, format := "jpg"
    bytes := 350000
    eager := ["https://res.cloudinary.com/d/a_main.jpg",
              "https://res.cloudinary.com/d/a_thumb.jpg"] }

/-- Batch used by the C3 witness: one valid file, one oversized, one PDF. -/
def wfiles : List (FileDesc × Except String RemoteUploadResult) :=
  [(fileA, .ok remoteA), (bigFile, .error "skipped"), (pdfFile, .error "skipped")]

def scenF1 : FileDesc := { name := "p1.jpg", size := 5242880, type := "image/jpeg" }
def scenF2 : FileDesc := { name := "p2.jpg", size := 10485760, type := "image/jpeg" }
def scenF3 : FileDesc := { name := "p3.jpg", size := 42, type := "image/jpeg" }

def scenR1 : RemoteUploadResult :=
  { secure_url := "https://res.cloudinary.com/d/p1.jpg", public_id := "amazon-fba/p1"
    width := 2000, height := 2000, format := "jpg", bytes := 101
    eager := ["https://res.cloudinary.com/d/p1m.jpg", "https://res.cloudinary.com/d/p1t.jpg"] }
def scenR2 : RemoteUploadResult :=
  { secure_url := "https://res.cloudinary.com/d/p2.jpg", public_id := "amazon-fba/p2"
    width := 2000, height := 2000, format := "jpg", bytes := 102
    eager := ["https://res.cloudinary.com/d/p2m.jpg", "https://res.cloudinary.com/d/p2t.jpg"] }
def scenR3 : RemoteUploadResult :=
  { secure_url := "https://res.cloudinary.com/d/p3.jpg", public_id := "amazon-fba/p3"
    width := 2000, height := 2000, format := "jpg", bytes := 103
    eager := ["https://res.cloudinary.com/d/p3m.jpg", "https://res.cloudinary.com/d/p3t.jpg"] }

/-- The C8 scenario batch: 3 valid JPEGs, all uploads succeed. -/
def scenFiles : List (FileDesc × Except String RemoteUploadResult) :=
  [(scenF1, .ok scenR1), (scenF2, .ok scenR2), (scenF3, .ok scenR3)]

def scenarioDate : String := "2026/1/1"

def scenarioBatch : BatchResponse :=
  (processBatch SECURITY_CONFIG (.ok readingZero) scenarioDate scenFiles).1

/-- The success records the C8 scenario produces. -/
def scenRec1 : ProcessSuccess :=
  { originalName := "p1.jpg", optimizedUrl := "https://res.cloudinary.com/d/p1m.jpg"
    mainImageUrl := some "https://res.cloudinary.com/d/p1m.jpg"
    thumbnailUrl := some "https://res.cloudinary.com/d/p1t.jpg"
    size := 101, dimWidth := 2000, dimHeight := 2000 }
def scenRec2 : ProcessSuccess :=
  { originalName := "p2.jpg", optimizedUrl := "https://res.cloudinary.com/d/p2m.jpg"
    mainImageUrl := some "https://res.cloudinary.com/d/p2m.jpg"
    thumbnailUrl := some "https://res.cloudinary.com/d/p2t.jpg"
    size := 102, dimWidth := 2000, dimHeight := 2000 }
def scenRec3 : ProcessSuccess :=
  { originalName := "p3.jpg", optimizedUrl := "https://res.cloudinary.com/d/p3m.jpg"
    mainImageUrl := some "https://res.cloudinary.com/d/p3m.jpg"
    thumbnailUrl := some "https://res.cloudinary.com/d/p3t.jpg"
    size := 103, dimWidth := 2000, dimHeight := 2000 }

/-- Call burst for the rate-limiter counterexample: one call opening a window
at t=0 ms, 59 more at t=60000 ms (the last instant of that window), then 60 at
t=60001 ms (the first instant of the next window). -/
def burstCalls : List (Nat × String) :=
  (0, "a") :: (List.replicate 59 (60000, "a") ++ List.replicate 60 (60001, "a"))

def burstResults : List (Nat × String × Bool) :=
  (runCalls SECURITY_CONFIG [] burstCalls).1

/-- A URL hosted on an attacker's domain that contains the expected domain as
a path substring. -/
def evilUrl : String := "https://attacker.example/res.cloudinary.com/photo.jpg"

/-- Bundle-relay witness data: two URLs, of which only the first fetches. -/
def wUrls : List String :=
  ["https://res.cloudinary.com/d/x.jpg", "https://res.cloudinary.com/d/y.jpg"]

def wFetch : String → Option String :=
  fun u => if u = "https://res.cloudinary.com/d/x.jpg" then some "XBYTES" else none

def wUrls21 : List String := List.replicate 21 "https://res.cloudinary.com/d/x.jpg"

/-! ## Helper lemmas -/

theorem contains_iff_mem (l : List String) (a : String) : l.contains a = true ↔ a ∈ l := by
  show l.elem a = true ↔ a ∈ l
  exact List.elem_iff

/-- The catch branch: a failed usage query yields the unknown-usage snapshot. -/
theorem checkUsageLimit_error (e d : String) :
    checkUsageLimit (.error e) d =
      { isNearLimit := false, isOverLimit := false, usage := none, nextResetDate := none } :=
  rfl

/-- The `isOverLimit := true` branch of `checkUsageLimit` is unreachable: any
percentage that is ≥ 100 is in particular > 80, so the near-limit branch
returns first, and that branch omits `isOverLimit`. -/
theorem checkUsageLimit_isOverLimit_false (reading : Except String RawUsage) (d : String) :
    (checkUsageLimit reading d).isOverLimit = false := by
  cases reading with
  | error e => rfl
  | ok u =>
      simp only [checkUsageLimit]
      by_cases h : u.bandwidthUsed / (25 * 1024 * 1024 * 1024) * 100 > 80 ∨
          u.storageUsed / (25 * 1024 * 1024 * 1024) * 100 > 80 ∨
          u.transformationsUsed / 25000 * 100 > 80
      · rw [if_pos h]
      · rw [if_neg h]
        push_neg at h
        rw [if_neg]
        push_neg
        refine ⟨by linarith [h.1], by linarith [h.2.1], by linarith [h.2.2]⟩

/-- The near-limit flag is set exactly when some percentage exceeds 80. -/
theorem checkUsageLimit_isNearLimit_iff (u : RawUsage) (d : String) :
    (checkUsageLimit (.ok u) d).isNearLimit = true ↔
      (u.bandwidthUsed / (25 * 1024 * 1024 * 1024) * 100 > 80 ∨
       u.storageUsed / (25 * 1024 * 1024 * 1024) * 100 > 80 ∨
       u.transformationsUsed / 25000 * 100 > 80) := by
  simp only [checkUsageLimit]
  by_cases h : u.bandwidthUsed / (25 * 1024 * 1024 * 1024) * 100 > 80 ∨
      u.storageUsed / (25 * 1024 * 1024 * 1024) * 100 > 80 ∨
      u.transformationsUsed / 25000 * 100 > 80
  · rw [if_pos h]
    simpa using h
  · rw [if_neg h, apply_ite QuotaSnapshot.isNearLimit]
    simp [h]

/-- The snapshot computed from the 150%-bandwidth reading: classified merely
as near-limit. -/
theorem snap150_eq (d : String) :
    checkUsageLimit (.ok reading150) d =
      { isNearLimit := true, isOverLimit := false
        usage := some ⟨150, 0, 0⟩, nextResetDate := some d } := by
  simp only [checkUsageLimit, reading150]
  norm_num

/-- The snapshot computed from the all-zero reading: both flags false. -/
theorem snap_zero (d : String) :
    checkUsageLimit (.ok readingZero) d =
      { isNearLimit := false, isOverLimit := false
        usage := some ⟨0, 0, 0⟩, nextResetDate := none } := by
  simp only [checkUsageLimit, readingZero]
  norm_num

/-- Every settled outcome is exactly one of a success or a failure. -/
theorem length_filterMap_outcomes (outs : List (FileOutcome × Bool)) :
    (outs.filterMap successOf).length + (outs.filterMap errorOf).length = outs.length := by
  induction outs with
  | nil => rfl
  | cons o t ih =>
      rcases o with ⟨o1, b⟩
      cases o1 <;> simp [successOf, errorOf, List.filterMap_cons] <;> omega

/-- One ZIP entry per URL whose fetch succeeded. -/
theorem buildEntries_length (fetch : String → Option String) (i : Nat) (urls : List String) :
    (buildEntries fetch i urls).length = urls.countP (fun u => (fetch u).isSome) := by
  induction urls generalizing i with
  | nil => rfl
  | cons u rest ih =>
      simp only [buildEntries]
      cases h : fetch u <;> simp [List.countP_cons, h, ih]

/-- A single `checkRateLimit` call keeps every stored counter at or below the
ceiling. -/
theorem checkRateLimit_bounded (cfg : SecurityConfig) (h1 : 1 ≤ cfg.rateLimitPerMinute)
    (now : Nat) (id : String) (store : RateLimitStore) (hs : storeBounded cfg store) :
    storeBounded cfg (checkRateLimit cfg now id store).2 := by
  intro p hp
  revert hp
  rcases hl : store.lookup id with _ | e
  · simp only [checkRateLimit, hl, storeSet, storeDelete, List.mem_cons, List.mem_filter]
    rintro (rfl | ⟨hp, -⟩)
    · exact h1
    · exact hs _ hp
  · simp only [checkRateLimit, hl]
    by_cases ht : now > e.resetTime
    · rw [if_pos ht]
      simp only [storeSet, storeDelete, List.mem_cons, List.mem_filter]
      rintro (rfl | ⟨hp, -⟩)
      · exact h1
      · exact hs _ hp
    · rw [if_neg ht]
      by_cases hc : e.count ≥ cfg.rateLimitPerMinute
      · rw [if_pos hc]
        exact fun hp => hs _ hp
      · rw [if_neg hc]
        simp only [storeSet, storeDelete, List.mem_cons, List.mem_filter]
        rintro (rfl | ⟨hp, -⟩)
        · show e.count + 1 ≤ cfg.rateLimitPerMinute
          omega
        · exact hs _ hp

/-- Running any call sequence from a bounded store keeps the store bounded. -/
theorem runCalls_bounded (cfg : SecurityConfig) (h1 : 1 ≤ cfg.rateLimitPerMinute)
    (calls : List (Nat × String)) :
    ∀ store, storeBounded cfg store → storeBounded cfg (runCalls cfg store calls).2 := by
  induction calls with
  | nil => exact fun store hs => hs
  | cons c rest ih =>
      intro store hs
      rcases c with ⟨t, id⟩
      simp only [runCalls]
      exact ih _ (checkRateLimit_bounded cfg h1 t id store hs)

/-- Shape of a successful per-file run: validations pass, the quota gate does
not fire, the upload succeeds; the success record reports the fixed
2000x2000 dimensions and the remote byte size, and a remote upload call is
issued. -/
theorem processFile_success_shape (cfg : SecurityConfig) (reading : Except String RawUsage)
    (d : String) (f : FileDesc) (r : RemoteUploadResult)
    (hs : (validateFileSize cfg f).valid = true)
    (ht : (validateFileType cfg f).valid = true)
    (ho : (checkUsageLimit reading d).isOverLimit = false) :
    processFile cfg reading d f (.ok r) =
      (.success { originalName := f.name
                  optimizedUrl := (r.eager.get? 0).getD r.secure_url
                  mainImageUrl := r.eager.get? 0
                  thumbnailUrl := r.eager.get? 1
                  size := r.bytes, dimWidth := 2000, dimHeight := 2000 }, true) := by
  simp [processFile, uploadAndOptimizeImage, hs, ht, ho]

/-- Evaluation of the C8 scenario batch: all three files succeed with the
fixed-variant success records. -/
theorem scenario_eval :
    scenarioBatch.results = [scenRec1, scenRec2, scenRec3] ∧
    scenarioBatch.errors = ([] : List ProcessError) ∧
    scenarioBatch.processed = 3 ∧ scenarioBatch.failed = 0 := by
  have h1 := processFile_success_shape SECURITY_CONFIG (.ok readingZero) scenarioDate
    scenF1 scenR1 (by decide) (by decide) (by rw [snap_zero])
  have h2 := processFile_success_shape SECURITY_CONFIG (.ok readingZero) scenarioDate
    scenF2 scenR2 (by decide) (by decide) (by rw [snap_zero])
  have h3 := processFile_success_shape SECURITY_CONFIG (.ok readingZero) scenarioDate
    scenF3 scenR3 (by decide) (by decide) (by rw [snap_zero])
  have houts : scenFiles.map
      (fun p => processFile SECURITY_CONFIG (.ok readingZero) scenarioDate p.1 p.2) =
      [(.success scenRec1, true), (.success scenRec2, true), (.success scenRec3, true)] := by
    simp only [scenFiles, List.map_cons, List.map_nil]
    rw [h1, h2, h3]
    decide
  refine ⟨?_, ?_, ?_, ?_⟩ <;>
    simp [scenarioBatch, processBatch, houts, successOf, errorOf]

/-- Claim C9: when the remote usage query fails, `checkUsageLimit` returns
the unknown-usage snapshot (both flags false, no usage figures) instead of
propagating the fault. -/
theorem C9_usage_failure_fail_open : ∀ (e d : String),
    checkUsageLimit (.error e) d =
      { isNearLimit := false, isOverLimit := false, usage := none, nextResetDate := none } :=
  fun _ _ => rfl

/-- Claim C2 (code bug): the near-limit flag is true exactly when some
percentage exceeds 80, as claimed; but the over-limit flag is false for every
reading — the `isOverLimit := true` branch is shadowed by the near-limit
branch (≥ 100 implies > 80) — so at a 150% bandwidth reading the snapshot is
classified merely near-limit, contradicting the claimed ≥ 100% behaviour. -/
theorem C2_overLimit_branch_dead :
    (∀ (reading : Except String RawUsage) (d : String),
       (checkUsageLimit reading d).isOverLimit = false) ∧
    (∀ (u : RawUsage) (d : String),
       (checkUsageLimit (.ok u) d).isNearLimit = true ↔
         (u.bandwidthUsed / (25 * 1024 * 1024 * 1024) * 100 > 80 ∨
          u.storageUsed / (25 * 1024 * 1024 * 1024) * 100 > 80 ∨
          u.transformationsUsed / 25000 * 100 > 80)) ∧
    (checkUsageLimit (.ok reading150) scenarioDate).isOverLimit = false ∧
    (checkUsageLimit (.ok reading150) scenarioDate).usage =
      some { bandwidth := 150, storage := 0, transformations := 0 } ∧
    ((100 : Rat) ≤ 150) := by
  refine ⟨checkUsageLimit_isOverLimit_false, checkUsageLimit_isNearLimit_iff,
    ?_, ?_, by norm_num⟩
  · rw [snap150_eq]
  · rw [snap150_eq]

/-- Claim C1 (code bug): with remote usage at 150% of the bandwidth ceiling,
the Quota Tracker never reports over-limit (the flag is unreachable), so the
quota gate in `uploadAndOptimizeImage` does not fire: a batch of one valid
file issues one remote upload call and reports a success — not the claimed
zero upload calls with per-file quota-exceeded failures. -/
theorem C1_quota_gate_never_fires :
    (checkUsageLimit (.ok reading150) scenarioDate).isNearLimit = true ∧
    (checkUsageLimit (.ok reading150) scenarioDate).isOverLimit = false ∧
    (100 : Rat) ≤ reading150.bandwidthUsed / (25 * 1024 * 1024 * 1024) * 100 ∧
    (processBatch SECURITY_CONFIG (.ok reading150) scenarioDate [(fileA, .ok remoteA)]).2 = 1 ∧
    (processBatch SECURITY_CONFIG (.ok reading150) scenarioDate
      [(fileA, .ok remoteA)]).1.processed = 1 ∧
    (processBatch SECURITY_CONFIG (.ok reading150) scenarioDate
      [(fileA, .ok remoteA)]).1.failed = 0 := by
  have hpf := processFile_success_shape SECURITY_CONFIG (.ok reading150) scenarioDate
    fileA remoteA (by decide) (by decide) (by rw [snap150_eq])
  refine ⟨by rw [snap150_eq], by rw [snap150_eq], by norm_num [reading150], ?_, ?_, ?_⟩ <;>
    simp [processBatch, hpf, successOf, errorOf]

/-- Claim C3: whenever the process route returns a batch response, its
processed count plus failed count equals the number of submitted files, and
every file rejected by the validator contributes a failure entry carrying the
validator's message. -/
theorem C3_outcome_accounting :
    ∀ (cfg : SecurityConfig) (rateCheck : RateLimitResult) (credsPresent : Bool)
      (reading : Except String RawUsage) (nextResetDate : String)
      (outputSizes : List String)
      (files : List (FileDesc × Except String RemoteUploadResult))
      (b : BatchResponse) (n : Nat),
      processPOST cfg rateCheck credsPresent reading nextResetDate outputSizes files =
        (.batch b, n) →
      (b.processed + b.failed = b.total_images ∧
       b.total_images = files.length ∧
       (∀ p ∈ files, (validateFileSize cfg p.1).valid = false →
         ({ fileName := p.1.name, error := (validateFileSize cfg p.1).error.getD "" } :
             ProcessError) ∈ b.errors) ∧
       (∀ p ∈ files, (validateFileSize cfg p.1).valid = true →
         (validateFileType cfg p.1).valid = false →
         ({ fileName := p.1.name, error := (validateFileType cfg p.1).error.getD "" } :
             ProcessError) ∈ b.errors)) := by
  intro cfg rateCheck credsPresent reading d sizes files b n h
  unfold processPOST at h
  split at h
  · simp at h
  split at h
  · simp at h
  split at h
  · simp at h
  split at h
  · simp at h
  rw [Prod.mk.injEq] at h
  have hb : b = (processBatch cfg reading d files).1 := by
    have := h.1
    injection this with hb
    exact hb.symm
  subst hb
  refine ⟨?_, ?_, ?_, ?_⟩
  · show ((files.map fun p => processFile cfg reading d p.1 p.2).filterMap successOf).length +
      ((files.map fun p => processFile cfg reading d p.1 p.2).filterMap errorOf).length =
      files.length
    rw [length_filterMap_outcomes]
    exact List.length_map files _
  · rfl
  · intro p hp hv
    refine List.mem_filterMap.mpr
      ⟨processFile cfg reading d p.1 p.2, List.mem_map_of_mem _ hp, ?_⟩
    simp [processFile, hv, errorOf]
  · intro p hp hv1 hv2
    refine List.mem_filterMap.mpr
      ⟨processFile cfg reading d p.1 p.2, List.mem_map_of_mem _ hp, ?_⟩
    simp [processFile, hv1, hv2, errorOf]

/-- Witness for C3 at a concrete batch: one valid file, one oversized file,
one PDF; the counts balance and both validator rejections appear among the
failures with the validator's message. -/
theorem C3_outcome_accounting_witness :
    ((processBatch SECURITY_CONFIG (.ok readingZero) scenarioDate wfiles).1.processed +
       (processBatch SECURITY_CONFIG (.ok readingZero) scenarioDate wfiles).1.failed =
       (processBatch SECURITY_CONFIG (.ok readingZero) scenarioDate wfiles).1.total_images) ∧
    ({ fileName := "big.jpg",
       error := (validateFileSize SECURITY_CONFIG bigFile).error.getD "" } : ProcessError)
      ∈ (processBatch SECURITY_CONFIG (.ok readingZero) scenarioDate wfiles).1.errors ∧
    ({ fileName := "doc.pdf",
       error := (validateFileType SECURITY_CONFIG pdfFile).error.getD "" } : ProcessError)
      ∈ (processBatch SECURITY_CONFIG (.ok readingZero) scenarioDate wfiles).1.errors := by
  have h := C3_outcome_accounting SECURITY_CONFIG { allowed := true, retryAfter := none }
    true (.ok readingZero) scenarioDate [] wfiles
    (processBatch SECURITY_CONFIG (.ok readingZero) scenarioDate wfiles).1
    (processBatch SECURITY_CONFIG (.ok readingZero) scenarioDate wfiles).2 rfl
  refine ⟨h.1, ?_, ?_⟩
  · exact h.2.2.1 (bigFile, .error "skipped")
      (List.mem_cons_of_mem _ (List.mem_cons_self _ _)) (by decide)
  · exact h.2.2.2 (pdfFile, .error "skipped")
      (List.mem_cons_of_mem _ (List.mem_cons_of_mem _ (List.mem_cons_self _ _)))
      (by decide) (by decide)

set_option maxRecDepth 100000 in
/-- Claim C4 counterexample: the limiter is a fixed-window counter, so a
burst at the last instant of one window followed by a burst at the first
instant of the next admits 119 calls whose timestamps lie within a 1 ms span
— far more than the default ceiling of 60 within a rolling 60-second
window, every one of the 120 burst calls being admitted. -/
theorem C4_counterexample_rolling_window :
    (burstResults.filter
        (fun r => decide (60000 ≤ r.1) && decide (r.1 ≤ 60001) && r.2.2)).length = 119 ∧
    burstResults.length = 120 ∧
    (burstResults.filter (fun r => r.2.2)).length = 120 ∧
    SECURITY_CONFIG.rateLimitPerMinute = 60 ∧
    60001 - 60000 ≤ 60 * 1000 := by decide

/-- Claim C4 as amended: per identifier the limiter enforces a fixed
60-second window — stored counters never exceed the ceiling over any call
sequence, and a request arriving while the window is active with the counter
at the ceiling is denied with `retryAfter = ceil((resetTime - now)/1000)`,
positive whenever the request arrives strictly before the reset time. -/
theorem C4_fixed_window (cfg : SecurityConfig) (h1 : 1 ≤ cfg.rateLimitPerMinute) :
    (∀ calls : List (Nat × String), storeBounded cfg (runCalls cfg [] calls).2) ∧
    (∀ (now : Nat) (id : String) (store : RateLimitStore) (e : RateLimitEntry),
      store.lookup id = some e → now ≤ e.resetTime →
      cfg.rateLimitPerMinute ≤ e.count →
      (checkRateLimit cfg now id store).1 =
        { allowed := false, retryAfter := some ((e.resetTime - now + 999) / 1000) } ∧
      (now < e.resetTime → 0 < (e.resetTime - now + 999) / 1000)) := by
  constructor
  · intro calls
    exact runCalls_bounded cfg h1 calls [] (by intro p hp; cases hp)
  · intro now id store e hl hle hc
    constructor
    · simp only [checkRateLimit, hl]
      rw [if_neg (by omega), if_pos hc]
    · intro hlt
      omega

/-- Witness for C4 as amended: a full entry one second before its reset is
denied with a positive retry value, and a one-call run keeps counters
bounded. -/
theorem C4_fixed_window_witness :
    (checkRateLimit SECURITY_CONFIG 119000 "a"
        [("a", { count := 60, resetTime := 120000 })]).1 =
      { allowed := false, retryAfter := some ((120000 - 119000 + 999) / 1000) } ∧
    0 < ((120000 - 119000 + 999) / 1000 : Nat) ∧
    storeBounded SECURITY_CONFIG (runCalls SECURITY_CONFIG [] [(0, "a")]).2 := by
  have h := C4_fixed_window SECURITY_CONFIG (by decide)
  have h2 := h.2 119000 "a" [("a", { count := 60, resetTime := 120000 })]
    { count := 60, resetTime := 120000 } rfl (by decide) (by decide)
  exact ⟨h2.1, h2.2 (by decide), h.1 [(0, "a")]⟩

/-- Claim C5: a file is accepted by the validator iff its size is at most the
configured maximum (default 10 MiB) and its MIME type is in the allow-list;
in particular a file exactly at the maximum is accepted, one byte over is
rejected, and an application/pdf file is rejected regardless of size. -/
theorem C5_validator_contract :
    (∀ f : FileDesc, fileAccepted SECURITY_CONFIG f = true ↔
       (f.size ≤ SECURITY_CONFIG.maxFileSize ∧
        f.type ∈ SECURITY_CONFIG.allowedMimeTypes)) ∧
    (∀ f : FileDesc, f.type = "application/pdf" →
       fileAccepted SECURITY_CONFIG f = false) ∧
    fileAccepted SECURITY_CONFIG { name := "max.jpg", size := 10485760, type := "image/jpeg" } = true ∧
    fileAccepted SECURITY_CONFIG { name := "over.jpg", size := 10485761, type := "image/jpeg" } = false ∧
    SECURITY_CONFIG.maxFileSize = 10 * 1024 * 1024 := by
  have hiff : ∀ f : FileDesc, fileAccepted SECURITY_CONFIG f = true ↔
      (f.size ≤ SECURITY_CONFIG.maxFileSize ∧
       f.type ∈ SECURITY_CONFIG.allowedMimeTypes) := by
    intro f
    simp only [fileAccepted, validateFileSize, validateFileType,
      apply_ite ValidationResult.valid, Bool.and_eq_true]
    constructor
    · rintro ⟨h1, h2⟩
      constructor
      · by_contra hgt
        rw [if_pos (show f.size > SECURITY_CONFIG.maxFileSize by omega)] at h1
        exact absurd h1 (by decide)
      · by_cases hc : SECURITY_CONFIG.allowedMimeTypes.contains f.type = true
        · exact (contains_iff_mem _ _).mp hc
        · rw [if_pos (by simpa using hc)] at h2
          exact absurd h2 (by decide)
    · rintro ⟨h1, h2⟩
      constructor
      · rw [if_neg (by omega)]
      · have hc := (contains_iff_mem SECURITY_CONFIG.allowedMimeTypes f.type).mpr h2
        rw [if_neg (by simp [hc, h2])]
  refine ⟨hiff, ?_, by decide, by decide, by decide⟩
  intro f hpdf
  cases hb : fileAccepted SECURITY_CONFIG f
  · rfl
  · exfalso
    have hmem := ((hiff f).mp hb).2
    rw [hpdf] at hmem
    exact absurd hmem (by decide)

/-- Witness for C5: a PDF is rejected, a small JPEG is accepted. -/
theorem C5_validator_contract_witness :
    fileAccepted SECURITY_CONFIG pdfFile = false ∧
    fileAccepted SECURITY_CONFIG { name := "m.jpg", size := 123, type := "image/jpeg" } = true := by
  refine ⟨C5_validator_contract.2.1 pdfFile rfl, ?_⟩
  exact (C5_validator_contract.1 _).mpr ⟨by decide, by decide⟩

/-- Claim C6 counterexample: the empty URL list is within the claimed
"at most 20" range, yet the handler rejects it with a 400-style error and
produces no archive at all. -/
theorem C6_counterexample_empty_list :
    (downloadPOST "batch1" [] (fun _ => none)).1 =
      DownloadResponse.badRequest "画像URLが指定されていません" ∧
    ([] : List String).length ≤ 20 :=
  ⟨rfl, by decide⟩

/-- Claim C6 as amended: 21 or more URLs are rejected with the count-exceeded
error before any fetch; a non-empty list of at most 20 URLs yields a ZIP with
exactly one entry per successfully fetched URL, failed fetches being skipped
(each URL is fetched exactly once either way). -/
theorem C6_bundle_relay (batchId : String) (urls : List String)
    (fetch : String → Option String) :
    (20 < urls.length →
       downloadPOST batchId urls fetch =
         (.tooMany "一度にダウンロードできる画像は最大20枚までです", 0)) ∧
    (1 ≤ urls.length → urls.length ≤ 20 →
       downloadPOST batchId urls fetch =
         (.zip batchId (buildEntries fetch 0 urls), urls.length) ∧
       (buildEntries fetch 0 urls).length =
         urls.countP (fun u => (fetch u).isSome)) := by
  constructor
  · intro h
    unfold downloadPOST
    rw [if_neg (by omega), if_pos (by omega)]
  · intro h1 h2
    refine ⟨?_, buildEntries_length fetch 0 urls⟩
    unfold downloadPOST
    rw [if_neg (by omega), if_neg (by omega)]

/-- Witness for C6: two URLs of which one fetch fails produce a ZIP with one
entry; 21 URLs are rejected with zero fetches. -/
theorem C6_bundle_relay_witness :
    downloadPOST "b1" wUrls wFetch = (.zip "b1" (buildEntries wFetch 0 wUrls), 2) ∧
    (buildEntries wFetch 0 wUrls).length = 1 ∧
    downloadPOST "b21" wUrls21 wFetch =
      (.tooMany "一度にダウンロードできる画像は最大20枚までです", 0) := by
  have h := C6_bundle_relay "b1" wUrls wFetch
  have h21 := C6_bundle_relay "b21" wUrls21 wFetch
  refine ⟨(h.2 (by decide) (by decide)).1, ?_, h21.1 (by decide)⟩
  rw [(h.2 (by decide) (by decide)).2]
  decide

/-- Claim C7 (code bug): the relay validates with a substring test, not a
host test — a URL hosted on an attacker's domain that merely contains
"res.cloudinary.com" in its path passes the check and reaches the fetch,
contradicting the claimed host-based rejection. -/
theorem C7_open_relay_bypass :
    hostOf evilUrl = "attacker.example" ∧
    hostOf evilUrl ≠ "res.cloudinary.com" ∧
    stringIncludes evilUrl "res.cloudinary.com" = true ∧
    proxyDownloadPOST (some evilUrl) = (.fetchAttempt evilUrl, true) := by decide

/-- Claim C8 counterexample: in the 3-JPEG scenario all files succeed, but
the produced variants come from the fixed eager list — main 2000x2000 and
thumbnail 1000x1000; no 300x300 variant exists even though the request asked
for ["2000x2000","300x300"] (the handler never reads the requested sizes). -/
theorem C8_counterexample_sizes_ignored :
    scenarioBatch.processed = 3 ∧ scenarioBatch.failed = 0 ∧
    uploadEager.map (fun t => (t.width, t.height)) = [(2000, 2000), (1000, 1000)] ∧
    ¬ ((300, 300) ∈ uploadEager.map (fun t => (t.width, t.height))) ∧
    scenarioBatch.results.map (fun s => (s.dimWidth, s.dimHeight)) =
      [(2000, 2000), (2000, 2000), (2000, 2000)] := by
  refine ⟨scenario_eval.2.2.1, scenario_eval.2.2.2, by decide, by decide, ?_⟩
  rw [scenario_eval.1]
  decide

/-- Claim C8 as amended: the scenario yields processed=3, failed=0, and each
success entry carries two distinct output URLs (main and thumbnail), but the
variants are the server-fixed 2000x2000 and 1000x1000 specifications and the
reported dimensions are the constant 2000x2000; the requested output sizes
do not influence the response at all. -/
theorem C8_fixed_variants :
    (∀ s1 s2 : List String,
       processPOST SECURITY_CONFIG { allowed := true, retryAfter := none } true
         (.ok readingZero) scenarioDate s1 scenFiles =
       processPOST SECURITY_CONFIG { allowed := true, retryAfter := none } true
         (.ok readingZero) scenarioDate s2 scenFiles) ∧
    scenarioBatch.processed = 3 ∧ scenarioBatch.failed = 0 ∧
    scenarioBatch.results.map (fun s => s.mainImageUrl) =
      [some "https://res.cloudinary.com/d/p1m.jpg",
       some "https://res.cloudinary.com/d/p2m.jpg",
       some "https://res.cloudinary.com/d/p3m.jpg"] ∧
    scenarioBatch.results.map (fun s => s.thumbnailUrl) =
      [some "https://res.cloudinary.com/d/p1t.jpg",
       some "https://res.cloudinary.com/d/p2t.jpg",
       some "https://res.cloudinary.com/d/p3t.jpg"] ∧
    scenarioBatch.results.all (fun s => s.mainImageUrl != s.thumbnailUrl) = true ∧
    uploadEager.map (fun t => (t.width, t.height)) = [(2000, 2000), (1000, 1000)] ∧
    scenarioBatch.results.map (fun s => (s.dimWidth, s.dimHeight)) =
      [(2000, 2000), (2000, 2000), (2000, 2000)] := by
  refine ⟨fun s1 s2 => rfl, scenario_eval.2.2.1, scenario_eval.2.2.2,
    ?_, ?_, ?_, by decide, ?_⟩ <;>
  · rw [scenario_eval.1]
    decide

/-- Claim C10: for every file whose upload succeeds, the response entry
reports the constant dimensions 2000x2000 — the width and height the remote
service returned are discarded — and only the byte size (and the variant
URLs) come from the remote result. -/
theorem C10_fixed_dimensions (cfg : SecurityConfig) (reading : Except String RawUsage)
    (d : String) (f : FileDesc) (r : RemoteUploadResult)
    (hs : (validateFileSize cfg f).valid = true)
    (ht : (validateFileType cfg f).valid = true)
    (ho : (checkUsageLimit reading d).isOverLimit = false) :
    (processFile cfg reading d f (.ok r)).1 =
      .success { originalName := f.name
                 optimizedUrl := (r.eager.get? 0).getD r.secure_url
                 mainImageUrl := r.eager.get? 0
                 thumbnailUrl := r.eager.get? 1
                 size := r.bytes, dimWidth := 2000, dimHeight := 2000 } := by
  rw [processFile_success_shape cfg reading d f r hs ht ho]

/-- Witness for C10: a remote result reporting 4000x3000 still yields a
success entry with dimensions 2000x2000 and the remote byte size. -/
theorem C10_fixed_dimensions_witness :
    (processFile SECURITY_CONFIG (.ok readingZero) scenarioDate fileA (.ok remoteA)).1 =
      .success { originalName := "a.jpg"
                 optimizedUrl := "https://res.cloudinary.com/d/a_main.jpg"
                 mainImageUrl := some "https://res.cloudinary.com/d/a_main.jpg"
                 thumbnailUrl := some "https://res.cloudinary.com/d/a_thumb.jpg"
                 size := 350000, dimWidth := 2000, dimHeight := 2000 } := by
  rw [C10_fixed_dimensions SECURITY_CONFIG (.ok readingZero) scenarioDate fileA remoteA
    (by decide) (by decide) (by rw [snap_zero])]
  decide
